import Mathlib

/-!
# Fandango.ai scraping engine: a shallow embedding

This file embeds the core logic of the Fandango.ai scraping engine
(`src/lib/fandangoScraper.ts` and its Docker variant `src/lib/docker-patch.ts`,
plus the HTTP handler `src/app/api/scraper/route.ts`) in Lean 4 and proves
properties of the embedded code.

JavaScript numbers that can be `NaN` are modelled as `Option Int` (with `none`
playing the role of `NaN`); JavaScript strings are modelled as `String`, with
all character-level operations implemented over `String.data` so that every
definition evaluates by `decide`/`rfl`.  DOM subtrees are abstracted as lists
of buttons carrying their inner text and resolved `href`.
-/

namespace Fandango

/-- A JavaScript number restricted to the integer values this code produces;
`none` models `NaN`. -/
def JSNum : Type := Option Int

instance : DecidableEq JSNum := by unfold JSNum; infer_instance

instance : Repr JSNum := by unfold JSNum; infer_instance

/-- Shorthand for a non-`NaN` value. -/
def JSNum.int (n : Int) : JSNum := some n

/-- JavaScript `+` on our numbers: `NaN` propagates. -/
def jsAdd : JSNum → JSNum → JSNum
  | some a, some b => some (a + b)
  | _, _ => none

/-- Multiplication by a constant: `NaN` propagates. -/
def jsMulC (a : JSNum) (k : Int) : JSNum :=
  match a with
  | some n => some (n * k)
  | none => none

/-- JavaScript `<=`: any comparison against `NaN` is false. -/
def jsLeB : JSNum → JSNum → Bool
  | some a, some b => decide (a ≤ b)
  | _, _ => false

/-- JavaScript `<`: any comparison against `NaN` is false. -/
def jsLtB : JSNum → JSNum → Bool
  | some a, some b => decide (a < b)
  | _, _ => false

/-- JavaScript `===` on numbers: `NaN === NaN` is false. -/
def jsEqB : JSNum → JSNum → Bool
  | some a, some b => decide (a = b)
  | _, _ => false

/-- Numeric value of a decimal digit character. -/
def digitVal (c : Char) : Nat := c.toNat - '0'.toNat

/-- Decimal value of a digit list (used for the leading digits accepted by
`parseInt`). -/
def digitsVal (l : List Char) : Nat :=
  l.foldl (fun a c => a * 10 + digitVal c) 0

/-- The leading run of decimal digits, or `none` when there is none
(`parseInt` then yields `NaN`). -/
def leadingNat (l : List Char) : Option Nat :=
  let ds := l.takeWhile Char.isDigit
  if ds.isEmpty then none else some (digitsVal ds)

/-- JavaScript `parseInt(s, 10)`: skip leading whitespace, allow a sign,
read the leading run of digits; `NaN` when no digit is found. -/
def jsParseIntL (l : List Char) : JSNum :=
  let l := l.dropWhile Char.isWhitespace
  match l with
  | '-' :: rest => (leadingNat rest).map (fun n => -(n : Int))
  | '+' :: rest => (leadingNat rest).map (fun n => (n : Int))
  | rest => (leadingNat rest).map (fun n => (n : Int))

/-- JavaScript `String.prototype.trim` (ASCII whitespace suffices here). -/
def trimL (l : List Char) : List Char :=
  ((l.dropWhile Char.isWhitespace).reverse.dropWhile Char.isWhitespace).reverse

/-- JavaScript `toLowerCase` on the ASCII strings this code handles. -/
def toLowerL (l : List Char) : List Char := l.map Char.toLower

/-- Does the string end with the character `c` (`endsWith` with a one-character
argument)? -/
def endsWithChar (l : List Char) (c : Char) : Bool :=
  decide (l.getLast? = some c)

/-- Does `l` contain the character `c` (used for `includes(":")`)? -/
def containsChar (l : List Char) (c : Char) : Bool := l.contains c

/-- JavaScript `includes(sub)`: substring occurrence. -/
def containsSub (l sub : List Char) : Bool :=
  match l with
  | [] => sub.isEmpty
  | c :: t => sub.isPrefixOf (c :: t) || containsSub t sub

/-- JavaScript `replace(pat, repl)` with a string pattern: replace the first
occurrence only. -/
def replaceFirstSub (l pat repl : List Char) : List Char :=
  if pat.isEmpty then repl ++ l
  else go l
where
  go : List Char → List Char
    | [] => []
    | c :: t => if pat.isPrefixOf (c :: t) then repl ++ (c :: t).drop pat.length
                else c :: go t

/-- JavaScript `split(c)` with a one-character separator. -/
def splitOnChar : List Char → Char → List (List Char)
  | [], _ => [[]]
  | h :: t, c =>
    if h = c then [] :: splitOnChar t c
    else match splitOnChar t c with
      | [] => [[h]]
      | p :: ps => (h :: p) :: ps

/-- JavaScript `split(sub)[0]` for a non-empty string pattern: the part of `l`
before the first occurrence of `sub` (all of `l` when absent). -/
def takeBeforeSub (l sub : List Char) : List Char :=
  match l with
  | [] => []
  | c :: t => if sub.isPrefixOf (c :: t) then [] else c :: takeBeforeSub t sub

/--
`parseTime` from `src/lib/fandangoScraper.ts` (lines 1150-1214) and
`src/lib/docker-patch.ts` (lines 1199-1263); the two copies are textually
identical.  Converts a showtime string to minutes since midnight:

* empty string: `0` (the `if (!timeStr) return 0` guard);
* an `a`/`p` suffix is stripped (`p` sets PM), else an embedded `am`/`pm`
  (case-insensitive) is removed from the lowercased string;
* then `H:MM`/`HH:MM` (colon), 4-digit `HHMM`, bare hour of ≤ 2 digits, or
  3-digit `HMM`;
* PM adds 12 to hours below 12; a non-PM hour of exactly 12 becomes 0.

`parseInt` of non-numeric text yields `NaN` (`none`), which propagates.
-/
def parseTimeL (l0 : List Char) : JSNum :=
  if l0.isEmpty then some 0
  else
    let t1 := trimL l0
    let lower := toLowerL t1
    let step2 : List Char × Bool :=
      if endsWithChar t1 'a' then (t1.dropLast, false)
      else if endsWithChar t1 'p' then (t1.dropLast, true)
      else if containsSub lower ['a', 'm'] then
        (trimL (replaceFirstSub lower ['a', 'm'] []), false)
      else if containsSub lower ['p', 'm'] then
        (trimL (replaceFirstSub lower ['p', 'm'] []), true)
      else (t1, false)
    let t2 := step2.1
    let isPM := step2.2
    let hm : JSNum × JSNum :=
      if containsChar t2 ':' then
        let parts := splitOnChar t2 ':'
        (jsParseIntL (parts.getD 0 []), jsParseIntL (parts.getD 1 []))
      else if t2.length = 4 then
        (jsParseIntL (t2.take 2), jsParseIntL ((t2.drop 2).take 2))
      else if t2.length ≤ 2 then (jsParseIntL t2, some 0)
      else if t2.length = 3 then
        (jsParseIntL (t2.take 1), jsParseIntL ((t2.drop 1).take 2))
      else (some 0, some 0)
    let hours1 := if isPM && jsLtB hm.1 (some 12) then jsAdd hm.1 (some 12) else hm.1
    let hours2 := if !isPM && jsEqB hours1 (some 12) then some 0 else hours1
    jsAdd (jsMulC hours2 60) hm.2

/-- `parseTime` on strings. -/
def parseTime (s : String) : JSNum := parseTimeL s.data

/-- JavaScript number-to-string coercion: `NaN` prints as `"NaN"`, integers in
decimal. -/
def jsNumToString (a : JSNum) : String :=
  match a with
  | some n => toString n
  | none => "NaN"

/-- JavaScript `padStart(2, "0")`. -/
def padStart2 (s : String) : String :=
  if s.length < 2 then String.mk (List.replicate (2 - s.length) '0') ++ s else s

/-- JavaScript `Math.floor(a / k)` for positive `k`: floor division, `NaN`
propagates. -/
def jsFloorDiv (a : JSNum) (k : Int) : JSNum :=
  match a with
  | some n => some (Int.fdiv n k)
  | none => none

/-- JavaScript `a % k`: truncated remainder, `NaN` propagates. -/
def jsRem (a : JSNum) (k : Int) : JSNum :=
  match a with
  | some n => some (Int.tmod n k)
  | none => none

/-- JavaScript `a || k` for a number `a`: `k` when `a` is `0` or `NaN`. -/
def jsFalsyOr (a : JSNum) (k : Int) : JSNum :=
  match a with
  | some 0 => some k
  | none => some k
  | some n => some n

/-- JavaScript `a - k`, `NaN` propagates. -/
def jsSubC (a : JSNum) (k : Int) : JSNum :=
  match a with
  | some n => some (n - k)
  | none => none

/-- One entry of `processedSpecificTimes` (fandangoScraper.ts lines 1220-1241
and the identical docker-patch.ts copy): the query's specific time together
with its minute value and the "standard" and "am/pm" re-renderings used for
textual comparison. -/
structure ProcSpec where
  originalFormat : String
  minutes : JSNum
  standard : String
  amPm : String
  deriving DecidableEq, Repr

/-- Build a `ProcSpec` from one query-supplied specific time, as in
`specificTimes.map((t) => ...)` in the extraction closure. -/
def procSpec (t : String) : ProcSpec :=
  let m := parseTime t
  let h := jsFloorDiv m 60
  { originalFormat := t
    minutes := m
    standard := jsNumToString h ++ ":" ++ padStart2 (jsNumToString (jsRem m 60))
    amPm :=
      (if jsLtB (some 12) h then jsNumToString (jsSubC h 12)
       else jsNumToString (jsFalsyOr h 12)) ++ ":" ++
        padStart2 (jsNumToString (jsRem m 60)) ++
        (if jsLeB (some 12) h then "p" else "a") }

/-- An abstracted showtime button: its trimmed-to-be inner text and the `href`
resolved from the button or its nearest enclosing anchor (`""` when absent). -/
structure Button where
  text : String
  url : String
  deriving DecidableEq, Repr

/-- The `TimeSlot` record of the scraper: display text, optional booking URL
(`url: url || undefined` in the source), highlight flag. -/
structure TimeSlot where
  time : String
  url : Option String
  isHighlighted : Bool
  deriving DecidableEq, Repr

/-- Emptiness of a string, checked on its character data (same value as
`String.isEmpty`, stated so proofs can reason structurally). -/
def strEmptyB (s : String) : Bool := s.data.isEmpty

/-- Truthiness of a `string | undefined` value (`undefined` and `""` are
falsy). -/
def optStrTruthy : Option String → Bool
  | some s => !strEmptyB s
  | none => false

/-- The specific-time comparison used per button (fandangoScraper.ts lines
1300-1341 and 1416-1452): minute equality, else case-insensitive equality of
the button text with the original, standard, or am/pm renderings, the latter
also with `" AM"`/`" PM"` substituted for its meridiem letter. -/
def specificTimeHit (buttonTime : JSNum) (timeText : String) (st : ProcSpec) : Bool :=
  jsEqB buttonTime st.minutes ||
    (let btl := String.mk (toLowerL timeText.data)
     decide (btl = String.mk (toLowerL st.originalFormat.data)) ||
     decide (btl = String.mk (toLowerL st.standard.data)) ||
     decide (btl = String.mk (toLowerL st.amPm.data)) ||
     decide (btl = String.mk (toLowerL (replaceFirstSub st.amPm.data ['a'] " AM".data))) ||
     decide (btl = String.mk (toLowerL (replaceFirstSub st.amPm.data ['p'] " PM".data))))

/-- Per-button processing of the filtered extraction closure
(fandangoScraper.ts lines 1265-1364 for the `.showtimes-btn-list` pass and
1380-1473 for the generic pass; both use this same body): skip empty or
over-long text, then highlight when the parsed time is inside the `[start,end]`
range (both bounds required) or matches a specific time. -/
def processButtonFiltered (startTime endTime : String) (startMinutes endMinutes : JSNum)
    (pst : List ProcSpec) (b : Button) : Option TimeSlot :=
  let timeText := String.mk (trimL b.text.data)
  if strEmptyB timeText || timeText.length > 10 then none
  else
    let buttonTime := parseTime timeText
    let inRange := !strEmptyB startTime && !strEmptyB endTime &&
      jsLeB startMinutes buttonTime && jsLeB buttonTime endMinutes
    let hit := inRange || pst.any (specificTimeHit buttonTime timeText)
    some { time := timeText
           url := if strEmptyB b.url then none else some b.url
           isHighlighted := hit }

/-- Per-button processing of the no-filter extraction closure
(fandangoScraper.ts lines 1519-1599): every slot is emitted unhighlighted. -/
def processButtonPlain (b : Button) : Option TimeSlot :=
  let timeText := String.mk (trimL b.text.data)
  if strEmptyB timeText || timeText.length > 10 then none
  else
    some { time := timeText
           url := if strEmptyB b.url then none else some b.url
           isHighlighted := false }

/-- The filtered in-page extraction closure (fandangoScraper.ts lines
1132-1477, identical in docker-patch.ts): first the `.showtimes-btn-list`
special case over `btnLists`; when that produced at least one slot it is
returned, otherwise the generic showtime-button cascade over `buttons` runs.
`startTime`/`endTime` are the query bounds with their colon already removed. -/
def extractFiltered (startTime endTime : String) (specificTimes : List String)
    (btnLists : List (List Button)) (buttons : List Button) : List TimeSlot :=
  let startMinutes := if !strEmptyB startTime then parseTime startTime else some 0
  let endMinutes := if !strEmptyB endTime then parseTime endTime else some (24 * 60 - 1)
  let pst := specificTimes.map procSpec
  let fromLists := btnLists.flatten.filterMap
    (processButtonFiltered startTime endTime startMinutes endMinutes pst)
  if !fromLists.isEmpty then fromLists
  else buttons.filterMap (processButtonFiltered startTime endTime startMinutes endMinutes pst)

/-- The no-filter in-page extraction closure (fandangoScraper.ts lines
1501-1603): same structure, every slot unhighlighted. -/
def extractPlain (btnLists : List (List Button)) (buttons : List Button) : List TimeSlot :=
  let fromLists := btnLists.flatten.filterMap processButtonPlain
  if !fromLists.isEmpty then fromLists
  else buttons.filterMap processButtonPlain

/-- The query's `time_range` record. -/
structure TimeRange where
  start : Option String
  stop : Option String
  deriving DecidableEq, Repr

/-- `timeFilter?.start?.replace(":", "") || ""` (fandangoScraper.ts line
1480): the range bound with its first colon removed, or `""`. -/
def rangeArg (bound : Option TimeRange → Option String) (tf : Option TimeRange) : String :=
  match tf with
  | some r =>
    match bound (some r) with
    | some s => String.mk (replaceFirstSub s.data [':'] [])
    | none => ""
  | none => ""

/-- The colon-stripped `start` bound passed into the extraction closure. -/
def startArg (tf : Option TimeRange) : String := rangeArg (fun o => o.bind (·.start)) tf

/-- The colon-stripped `end` bound passed into the extraction closure. -/
def endArg (tf : Option TimeRange) : String := rangeArg (fun o => o.bind (·.stop)) tf

/-- The container-path extraction of `findMovieOnTheaterPage`
(fandangoScraper.ts lines 1112-1618): when `timeFilter || specificTimes` is
truthy — and a JavaScript array is truthy even when empty — the filtered
closure runs, otherwise the no-filter closure.  `specificTimes` is the raw
optional argument; `processQuery` always passes `query.specific_times || []`,
an array. -/
def containerExtract (tf : Option TimeRange) (specificTimes : Option (List String))
    (btnLists : List (List Button)) (buttons : List Button) : List TimeSlot :=
  if tf.isSome || specificTimes.isSome then
    extractFiltered (startArg tf) (endArg tf) (specificTimes.getD []) btnLists buttons
  else extractPlain btnLists buttons

/-- `parseInt(l.split(":")[0])` and `parseInt(l.split(":")[1] || "0")`, the
hour/minute split used by the direct-path highlighter's meridiem branches
(fandangoScraper.ts lines 845-871). -/
def hostSplitHM (l : List Char) : JSNum × JSNum :=
  let parts := splitOnChar l ':'
  (jsParseIntL (parts.getD 0 []),
   jsParseIntL (let p1 := parts.getD 1 []; if p1.isEmpty then ['0'] else p1))

/--
The inline slot-time parser of the direct extraction path
(fandangoScraper.ts lines 838-878, identical in docker-patch.ts): `a`/`p`
suffix, else embedded `am`/`pm` (taking the text before the marker), else
`H:MM`; PM adds 12 below 12.  Unlike `parseTime` it has no bare-digit branch
(those fall through to 0 hours 0 minutes) and no 12 AM adjustment.
-/
def hostParseSlot (time : String) : JSNum :=
  let st := trimL time.data
  let stLower := toLowerL st
  if endsWithChar st 'a' then
    let hm := hostSplitHM st.dropLast
    jsAdd (jsMulC hm.1 60) hm.2
  else if endsWithChar st 'p' then
    let hm := hostSplitHM st.dropLast
    let h := if jsLtB hm.1 (some 12) then jsAdd hm.1 (some 12) else hm.1
    jsAdd (jsMulC h 60) hm.2
  else if containsSub stLower ['a', 'm'] then
    let hm := hostSplitHM (trimL (takeBeforeSub stLower ['a', 'm']))
    jsAdd (jsMulC hm.1 60) hm.2
  else if containsSub stLower ['p', 'm'] then
    let hm := hostSplitHM (trimL (takeBeforeSub stLower ['p', 'm']))
    let h := if jsLtB hm.1 (some 12) then jsAdd hm.1 (some 12) else hm.1
    jsAdd (jsMulC h 60) hm.2
  else if containsChar st ':' then
    let parts := splitOnChar st ':'
    jsAdd (jsMulC (jsParseIntL (parts.getD 0 [])) 60) (jsParseIntL (parts.getD 1 []))
  else some 0

/-- A range bound in the direct-path highlighter: `parseInt(slice(0,2)) * 60 +
parseInt(slice(2))` (fandangoScraper.ts lines 883-889). -/
def hostBound (s : String) : JSNum :=
  jsAdd (jsMulC (jsParseIntL (s.data.take 2)) 60) (jsParseIntL (s.data.drop 2))

/-- A specific time's minute value in the direct-path highlighter
(fandangoScraper.ts lines 905-917): `H:MM` split, else 4-digit `HHMM`, else 0. -/
def hostSpecMinutes (t : String) : JSNum :=
  if containsChar t.data ':' then
    let parts := splitOnChar t.data ':'
    jsAdd (jsMulC (jsParseIntL (parts.getD 0 [])) 60) (jsParseIntL (parts.getD 1 []))
  else if t.length = 4 then
    jsAdd (jsMulC (jsParseIntL (t.data.take 2)) 60) (jsParseIntL (t.data.drop 2))
  else some 0

/--
The direct extraction path's highlight pass (fandangoScraper.ts lines
826-939, identical in docker-patch.ts): with `timeFilter || specificTimes`
truthy it re-parses each slot time with the inline parser and highlights
range hits (both colon-stripped bounds required) and specific-time minute
hits; otherwise it highlights exactly the slots carrying a truthy `url`.
-/
def applyHighlight (tf : Option TimeRange) (specificTimes : Option (List String))
    (slots : List TimeSlot) : List TimeSlot :=
  if tf.isSome || specificTimes.isSome then
    let startTime := startArg tf
    let endTime := endArg tf
    slots.map (fun slot =>
      if strEmptyB slot.time then slot
      else
        let m := hostParseSlot slot.time
        let inRange := !strEmptyB startTime && !strEmptyB endTime &&
          jsLeB (hostBound startTime) m && jsLeB m (hostBound endTime)
        let hit := (specificTimes.getD []).any (fun t => jsEqB m (hostSpecMinutes t))
        if inRange || hit then { slot with isHighlighted := true } else slot)
  else
    slots.map (fun slot =>
      if optStrTruthy slot.url then { slot with isHighlighted := true } else slot)

/-- The direct extraction path's in-page collection closure
(fandangoScraper.ts lines 683-812): harvest the `.showtimes-btn-list` buttons
(all unhighlighted); when that is empty, harvest the buttons of the matched
movie section's container when one was found, else nothing. -/
def directCollect (btnLists : List (List Button)) (sectionButtons : Option (List Button)) :
    List TimeSlot :=
  let fromLists := btnLists.flatten.filterMap processButtonPlain
  if !fromLists.isEmpty then fromLists
  else
    match sectionButtons with
    | some bs => bs.filterMap processButtonPlain
    | none => []

/-- The direct extraction path end to end: collect, then highlight
(fandangoScraper.ts lines 676-954). -/
def directPath (tf : Option TimeRange) (specificTimes : Option (List String))
    (btnLists : List (List Button)) (sectionButtons : Option (List Button)) : List TimeSlot :=
  applyHighlight tf specificTimes (directCollect btnLists sectionButtons)

/-! ## The query orchestrator (`processQuery`) -/

/-- The structured query (`ScraperQuery` in fandangoScraper.ts lines 28-35). -/
structure ScraperQuery where
  movie : Option String
  location : Option String
  theater : Option String
  time_range : Option TimeRange
  specific_times : Option (List String)
  deriving DecidableEq, Repr

/-- The aggregate response (`ScraperResult` in fandangoScraper.ts lines
18-26); `none` models an absent (`undefined`) field. -/
structure ScraperResult where
  message : Option String
  error : Option String
  screenshots : List String
  timeSlots : Option (List TimeSlot)
  movieTitle : Option String
  theaterName : Option String
  deriving DecidableEq, Repr

/-- What a navigator operation (`searchCity`, `searchTheater`,
`selectNearbyTheater`, `searchMovie`) reports back: an error string or
success. -/
structure NavResult where
  error : Option String
  deriving DecidableEq, Repr

/-- What `findMovieOnTheaterPage` reports back (its fields before the
truthiness-guarded copy into the final result). -/
structure MovieResult where
  screenshots : List String
  timeSlots : List TimeSlot
  movieTitle : String
  theaterName : String
  error : Option String
  deriving DecidableEq, Repr

/-- One browser operation performed by `processQuery`, in order. -/
inductive Action where
  | navigate
  | searchTheater (s : String)
  | searchCity (s : String)
  | selectNearby (s : String)
  | findMovie (s : String)
  | searchMovie (s : String)
  deriving DecidableEq, Repr

/-- The environment: the outcome of each browser operation as a function of
how many operations ran before it (the page state is only observed through
these outcomes). -/
structure Env where
  searchTheaterR : Nat → String → NavResult
  searchCityR : Nat → String → NavResult
  selectNearbyR : Nat → String → NavResult
  findMovieR : Nat → MovieResult
  searchMovieR : Nat → String → NavResult

/-- The movie-and-theater branch's copy of the extraction result into the
final result (fandangoScraper.ts lines 1853-1878): screenshots appended when
non-empty, `timeSlots`/`movieTitle`/`theaterName` copied when truthy, `error`
copied when truthy. -/
def copyMovieAll (res : ScraperResult) (mr : MovieResult) : ScraperResult :=
  let res := if !mr.screenshots.isEmpty then
      { res with screenshots := res.screenshots ++ mr.screenshots } else res
  let res := if !mr.timeSlots.isEmpty then { res with timeSlots := some mr.timeSlots } else res
  let res := if !strEmptyB mr.movieTitle then { res with movieTitle := some mr.movieTitle } else res
  let res := if !strEmptyB mr.theaterName then
      { res with theaterName := some mr.theaterName } else res
  if optStrTruthy mr.error then { res with error := mr.error } else res

/-- The location-routed branches' copy of the extraction result
(fandangoScraper.ts lines 1916-1926, 1959-1969 and the theater-only branch
2003-2010): only screenshots and error are taken over. -/
def copyMovieScrErr (res : ScraperResult) (mr : MovieResult) : ScraperResult :=
  let res := if !mr.screenshots.isEmpty then
      { res with screenshots := res.screenshots ++ mr.screenshots } else res
  if optStrTruthy mr.error then { res with error := mr.error } else res

/-- The result value every branch starts from (fandangoScraper.ts lines
1811-1814). -/
def initialResult : ScraperResult :=
  { message := some "Processing complete", error := none, screenshots := []
    timeSlots := none, movieTitle := none, theaterName := none }

/--
The location/theater/movie dispatch of `processQuery` after the
movie-and-theater fast path (fandangoScraper.ts lines 1883-2034): FLOW 1
(location: city search, then optional dropdown theater selection with a
direct-search fallback, then optional movie extraction), FLOW 2 (theater
only), FLOW 3 (movie only), else the input error.  `k` counts the browser
operations already performed, `tr` is the trace so far.
-/
def flowDispatch (env : Env) (q : ScraperQuery) (k : Nat) (tr : List Action) :
    ScraperResult × List Action :=
  let mv := q.movie.getD ""
  if optStrTruthy q.location then
    let loc := q.location.getD ""
    let cres := env.searchCityR k loc
    let tr := tr ++ [Action.searchCity loc]
    if optStrTruthy cres.error then ({ initialResult with error := cres.error }, tr)
    else if optStrTruthy q.theater then
      let th := q.theater.getD ""
      let nres := env.selectNearbyR (k + 1) th
      let tr := tr ++ [Action.selectNearby th]
      if !optStrTruthy nres.error then
        if optStrTruthy q.movie then
          let mr := env.findMovieR (k + 2)
          (copyMovieScrErr initialResult mr, tr ++ [Action.findMovie mv])
        else (initialResult, tr)
      else
        let tres := env.searchTheaterR (k + 2) th
        let tr := tr ++ [Action.searchTheater th]
        if optStrTruthy tres.error then ({ initialResult with error := tres.error }, tr)
        else if optStrTruthy q.movie then
          let mr := env.findMovieR (k + 3)
          (copyMovieScrErr initialResult mr, tr ++ [Action.findMovie mv])
        else (initialResult, tr)
    else (initialResult, tr)
  else if optStrTruthy q.theater then
    let th := q.theater.getD ""
    let tres := env.searchTheaterR k th
    let tr := tr ++ [Action.searchTheater th]
    if optStrTruthy tres.error then ({ initialResult with error := tres.error }, tr)
    else if optStrTruthy q.movie then
      let mr := env.findMovieR (k + 1)
      (copyMovieScrErr initialResult mr, tr ++ [Action.findMovie mv])
    else (initialResult, tr)
  else if optStrTruthy q.movie then
    let sres := env.searchMovieR k mv
    let tr := tr ++ [Action.searchMovie mv]
    (if optStrTruthy sres.error then { initialResult with error := sres.error }
     else initialResult, tr)
  else ({ initialResult with error := some "No valid search parameters provided" }, tr)

/--
`processQuery` (fandangoScraper.ts lines 1808-2042; docker-patch.ts lines
1883-2092 is identical up to an extra `sessionId` field in its result):
navigate to the site root, then, when both `movie` and `theater` are truthy,
search the theater directly and on success extract the movie and return the
fully-copied result; on theater-search failure fall through to the
location/theater/movie dispatch.
-/
def processQuery (env : Env) (q : ScraperQuery) : ScraperResult × List Action :=
  let tr0 := [Action.navigate]
  if optStrTruthy q.movie && optStrTruthy q.theater then
    let th := q.theater.getD ""
    let mv := q.movie.getD ""
    let tres := env.searchTheaterR 1 th
    let tr1 := tr0 ++ [Action.searchTheater th]
    if !optStrTruthy tres.error then
      let mr := env.findMovieR 2
      (copyMovieAll initialResult mr, tr1 ++ [Action.findMovie mv])
    else flowDispatch env q 2 tr1
  else flowDispatch env q 1 tr0

/-! ## The HTTP handler (`POST /api/scraper`) -/

/-- One unit of browser work performed while serving a request. -/
inductive RouteStep where
  | initBrowser
  | act (a : Action)
  | closeScraper
  deriving DecidableEq, Repr

/-- The HTTP response of the scraper route: status, either a result body or
an error body. -/
structure PostResponse where
  status : Nat
  error : Option String
  result : Option ScraperResult
  deriving DecidableEq, Repr

/--
The `POST` handler of `src/app/api/scraper/route.ts` (lines 7-62): reject a
query whose `movie`, `location` and `theater` are all falsy with a 400 before
any scraper is constructed; otherwise initialize the scraper (500 on
failure), run `processQuery` and return its result, closing the scraper in
all of these later cases.  The wall-clock timeout race around `processQuery`
is real-time behaviour and is not modelled; this is the non-timeout path.
-/
def postScraper (env : Env) (initOk : Bool) (q : ScraperQuery) :
    PostResponse × List RouteStep :=
  if !(optStrTruthy q.movie || optStrTruthy q.location || optStrTruthy q.theater) then
    ({ status := 400, error := some "No valid search parameters provided", result := none }, [])
  else if !initOk then
    ({ status := 500, error := some "Failed to initialize scraper", result := none },
      [RouteStep.initBrowser, RouteStep.closeScraper])
  else
    let (r, tr) := processQuery env q
    ({ status := 200, error := none, result := some r },
      RouteStep.initBrowser :: tr.map RouteStep.act ++ [RouteStep.closeScraper])

/-! ## The session registry (`getOrCreateSession`, docker-patch.ts) -/

/-- A scraper instance: its identity (so that "same underlying instance" is
expressible) and the session id generated in its constructor
(`Date.now().toString()`, docker-patch.ts line 91). -/
structure ScraperInst where
  instanceId : Nat
  sessionId : String
  deriving DecidableEq, Repr

/-- The process-wide `activeScrapers` map, as an association list with
`Map.get`-style first-match lookup. -/
def Registry : Type := List (String × ScraperInst)

instance : DecidableEq Registry := by unfold Registry; infer_instance

/-- `activeScrapers.get(id)` / `activeScrapers.has(id)`. -/
def lookupReg (reg : Registry) (sid : String) : Option ScraperInst :=
  (reg.find? (fun p => p.1 = sid)).map (·.2)

/-- A browser launch performed by `getOrCreateSession` (constructing and
initializing a fresh scraper). -/
inductive SessionEvent where
  | launched (sessionId : String)
  deriving DecidableEq, Repr

/--
`FandangoScraper.getOrCreateSession` (docker-patch.ts lines 2585-2600): when
a truthy `sessionId` is supplied and present in `activeScrapers`, return that
scraper with the registry untouched and no browser work; otherwise construct
and initialize a new scraper (identity `freshInstance`, session id `now` from
`Date.now().toString()`) and register it under its own session id.
-/
def getOrCreateSession (reg : Registry) (sid : Option String) (freshInstance : Nat)
    (now : String) : ScraperInst × Registry × List SessionEvent :=
  let hit : Option ScraperInst :=
    match sid with
    | some s => if !strEmptyB s then lookupReg reg s else none
    | none => none
  match hit with
  | some sc => (sc, reg, [])
  | none =>
    let sc : ScraperInst := { instanceId := freshInstance, sessionId := now }
    (sc, (sc.sessionId, sc) :: reg, [SessionEvent.launched now])

/-! ## Screenshot file names (`takeScreenshot`) -/

/-- A JavaScript `Date` broken into the fields `toISOString` prints. -/
structure JSDate where
  year : Nat
  month : Nat
  day : Nat
  hour : Nat
  minute : Nat
  second : Nat
  ms : Nat
  deriving DecidableEq, Repr

/-- Two zero-padded decimal digits, as `toISOString` prints fields below 100. -/
def pad2 (n : Nat) : List Char := [Nat.digitChar (n / 10 % 10), Nat.digitChar (n % 10)]

/-- Three zero-padded decimal digits (the milliseconds field). -/
def pad3 (n : Nat) : List Char :=
  [Nat.digitChar (n / 100 % 10), Nat.digitChar (n / 10 % 10), Nat.digitChar (n % 10)]

/-- Four zero-padded decimal digits (the year field). -/
def pad4 (n : Nat) : List Char :=
  [Nat.digitChar (n / 1000 % 10), Nat.digitChar (n / 100 % 10),
   Nat.digitChar (n / 10 % 10), Nat.digitChar (n % 10)]

/-- `new Date(...).toISOString()`: `YYYY-MM-DDTHH:MM:SS.mmmZ`. -/
def isoChars (d : JSDate) : List Char :=
  pad4 d.year ++ '-' :: pad2 d.month ++ '-' :: pad2 d.day ++ 'T' :: pad2 d.hour ++
    ':' :: pad2 d.minute ++ ':' :: pad2 d.second ++ '.' :: pad3 d.ms ++ ['Z']

/-- The character rewriting of `.replace(/:/g, "-").replace("T", "_")`; the
ISO string contains exactly one `T` and no other character is affected, so
the two replacements compose into this single character map. -/
def tsChar (c : Char) : Char :=
  if c = ':' then '-' else if c = 'T' then '_' else c

/-- The timestamp embedded in screenshot file names (`takeScreenshot`,
fandangoScraper.ts lines 155-159 and docker-patch.ts lines 205-209):
ISO string, colons to dashes, `T` to `_`, first 19 characters — i.e. second
resolution. -/
def timestampStr (d : JSDate) : String :=
  String.mk (((isoChars d).map tsChar).take 19)

/-- `` `${name}_${timestamp}.png` `` (fandangoScraper.ts line 160). -/
def screenshotFilename (name : String) (d : JSDate) : String :=
  name ++ "_" ++ timestampStr d ++ ".png"

/-- The first 19 characters of the ISO string (date and time down to the
second), before the character rewriting. -/
def tsFront (d : JSDate) : List Char :=
  pad4 d.year ++ '-' :: pad2 d.month ++ '-' :: pad2 d.day ++ 'T' :: pad2 d.hour ++
    ':' :: pad2 d.minute ++ ':' :: pad2 d.second

/-! ## Specification-side match predicates (§4.1 comparison contract)

The contract measures a slot in minutes via the time parser (`parseTime`):
a slot matches a range filter `[start, end]` (both bounds given) inclusively,
and matches a specific time when the minute values agree or one of the
textual re-renderings agrees case-insensitively. -/

/-- Range match per the comparison contract: both (colon-stripped) bounds
present and `start_minutes ≤ slot_minutes ≤ end_minutes`, minutes via
`parseTime`. -/
def rangeMatchB (startTime endTime slotTime : String) : Bool :=
  !strEmptyB startTime && !strEmptyB endTime &&
    jsLeB (parseTime startTime) (parseTime slotTime) &&
    jsLeB (parseTime slotTime) (parseTime endTime)

/-- Specific-time match per the comparison contract: minute equality or one
of the textual re-renderings equal, case-insensitively. -/
def specificMatchB (specificTimes : List String) (slotTime : String) : Bool :=
  specificTimes.any (fun t => specificTimeHit (parseTime slotTime) slotTime (procSpec t))

/-- Range match as measured by the direct path's inline parser. -/
def hostRangeMatchB (startTime endTime slotTime : String) : Bool :=
  !strEmptyB startTime && !strEmptyB endTime &&
    jsLeB (hostBound startTime) (hostParseSlot slotTime) &&
    jsLeB (hostParseSlot slotTime) (hostBound endTime)

/-- Specific-time match as measured by the direct path's inline parsers. -/
def hostSpecificMatchB (specificTimes : List String) (slotTime : String) : Bool :=
  specificTimes.any (fun t => jsEqB (hostParseSlot slotTime) (hostSpecMinutes t))

/-- `specificTimes: query.specific_times || []` as `processQuery` passes it to
the extraction (fandangoScraper.ts line 1830): always an array, hence always
truthy. -/
def specTimesArg (q : ScraperQuery) : Option (List String) :=
  some (q.specific_times.getD [])

/-! ## Concrete environments and inputs used in witnesses and
counterexamples -/

/-- An environment in which every direct theater search fails and every other
operation succeeds. -/
def env6 : Env :=
  { searchTheaterR := fun _ _ => ⟨some "Theater link not found for: AMC"⟩
    searchCityR := fun _ _ => ⟨none⟩
    selectNearbyR := fun _ _ => ⟨none⟩
    findMovieR := fun _ => ⟨["shot1.png"], [], "", "", none⟩
    searchMovieR := fun _ _ => ⟨none⟩ }

/-- A query carrying movie, location and theater. -/
def q6 : ScraperQuery := ⟨some "Dune", some "Chicago", some "AMC", none, none⟩

/-- An environment in which the direct theater search succeeds. -/
def envTheaterOk : Env :=
  { searchTheaterR := fun _ _ => ⟨none⟩
    searchCityR := fun _ _ => ⟨none⟩
    selectNearbyR := fun _ _ => ⟨none⟩
    findMovieR := fun _ =>
      ⟨["movie_Dune.png"], [⟨"5:10p", some "https://u", true⟩],
        "Dune: Part Two", "AMC River East", none⟩
    searchMovieR := fun _ _ => ⟨none⟩ }

/-- An environment in which the direct theater search fails while the
location-routed flow (city, dropdown, extraction) succeeds with a rich
extraction result. -/
def env10 : Env :=
  { searchTheaterR := fun _ _ => ⟨some "Theater link not found for: AMC"⟩
    searchCityR := fun _ _ => ⟨none⟩
    selectNearbyR := fun _ _ => ⟨none⟩
    findMovieR := fun _ =>
      ⟨["movie_Dune.png"], [⟨"5:10p", some "https://u", true⟩],
        "Dune: Part Two", "AMC River East", none⟩
    searchMovieR := fun _ _ => ⟨none⟩ }

/-- A registry holding one session. -/
def reg8 : Registry := [("1730000000000", ⟨7, "1730000000000"⟩)]

/-! ## Helper lemmas -/

theorem strEmptyB_false {s : String} (h : s ≠ "") : strEmptyB s = false := by
  cases s with
  | mk data =>
    cases data with
    | nil => exact absurd rfl h
    | cons c t => rfl

/-- Unfolding of a successful `processButtonFiltered`. -/
theorem processButtonFiltered_some {startTime endTime : String} {sMin eMin : JSNum}
    {pst : List ProcSpec} {b : Button} {slot : TimeSlot}
    (h : processButtonFiltered startTime endTime sMin eMin pst b = some slot) :
    slot.time = String.mk (trimL b.text.data) ∧
      slot.isHighlighted =
        ((!strEmptyB startTime && !strEmptyB endTime &&
            jsLeB sMin (parseTime slot.time) && jsLeB (parseTime slot.time) eMin) ||
          pst.any (specificTimeHit (parseTime slot.time) slot.time)) := by
  simp only [processButtonFiltered] at h
  by_cases hg : (strEmptyB (String.mk (trimL b.text.data)) ||
      decide ((String.mk (trimL b.text.data)).length > 10)) = true
  · rw [if_pos hg] at h
    exact absurd h (by simp)
  · rw [if_neg hg] at h
    injection h with h
    subst h
    exact ⟨rfl, rfl⟩

/-- A slot emitted by `processButtonPlain` is unhighlighted. -/
theorem processButtonPlain_unhighlighted {b : Button} {slot : TimeSlot}
    (h : processButtonPlain b = some slot) : slot.isHighlighted = false := by
  simp only [processButtonPlain] at h
  by_cases hg : (strEmptyB (String.mk (trimL b.text.data)) ||
      decide ((String.mk (trimL b.text.data)).length > 10)) = true
  · rw [if_pos hg] at h
    exact absurd h (by simp)
  · rw [if_neg hg] at h
    injection h with h
    subst h
    rfl

theorem any_map_procSpec (sts : List String) (p : ProcSpec → Bool) :
    (sts.map procSpec).any p = sts.any (fun t => p (procSpec t)) := by
  induction sts with
  | nil => rfl
  | cons a t ih => simp only [List.map_cons, List.any_cons, ih]

/-- Per-button form of the filtered closure's highlight value, with the
closure's own minute bounds plugged in. -/
theorem processButtonFiltered_highlight {startTime endTime : String} {sts : List String}
    {b : Button} {slot : TimeSlot}
    (h : processButtonFiltered startTime endTime
      (if !strEmptyB startTime then parseTime startTime else some 0)
      (if !strEmptyB endTime then parseTime endTime else some (24 * 60 - 1))
      (sts.map procSpec) b = some slot) :
    slot.isHighlighted =
      (rangeMatchB startTime endTime slot.time || specificMatchB sts slot.time) := by
  obtain ⟨-, hhl⟩ := processButtonFiltered_some h
  rw [hhl]
  unfold rangeMatchB specificMatchB
  rw [any_map_procSpec]
  by_cases hst : strEmptyB startTime = true
  · simp [hst]
  · rw [Bool.not_eq_true] at hst
    by_cases het : strEmptyB endTime = true
    · simp [hst, het]
    · rw [Bool.not_eq_true] at het
      simp [hst, het]

/-- Slots of the filtered extraction closure: highlighting equals the
disjunction of the code's range test and specific-time test, measured through
`parseTime` on the slot's own (trimmed) text. -/
theorem extractFiltered_highlight {startTime endTime : String} {sts : List String}
    {btnLists : List (List Button)} {buttons : List Button} {slot : TimeSlot}
    (h : slot ∈ extractFiltered startTime endTime sts btnLists buttons) :
    slot.isHighlighted =
      (rangeMatchB startTime endTime slot.time || specificMatchB sts slot.time) := by
  simp only [extractFiltered] at h
  generalize hS : (if (!strEmptyB startTime) = true then parseTime startTime else some 0) =
    sMin at h
  generalize hE : (if (!strEmptyB endTime) = true then parseTime endTime
    else some (24 * 60 - 1)) = eMin at h
  generalize hP : List.map procSpec sts = pst at h
  have hmem : ∃ b, processButtonFiltered startTime endTime sMin eMin pst b = some slot := by
    split at h
    · obtain ⟨b, -, hb⟩ := List.mem_filterMap.mp h
      exact ⟨b, hb⟩
    · obtain ⟨b, -, hb⟩ := List.mem_filterMap.mp h
      exact ⟨b, hb⟩
  obtain ⟨b, hb⟩ := hmem
  rw [← hS, ← hE, ← hP] at hb
  exact processButtonFiltered_highlight hb

/-- Slots of the no-filter extraction closure are unhighlighted. -/
theorem extractPlain_unhighlighted {btnLists : List (List Button)} {buttons : List Button}
    {slot : TimeSlot} (h : slot ∈ extractPlain btnLists buttons) :
    slot.isHighlighted = false := by
  simp only [extractPlain] at h
  split at h
  · obtain ⟨b, -, hb⟩ := List.mem_filterMap.mp h
    exact processButtonPlain_unhighlighted hb
  · obtain ⟨b, -, hb⟩ := List.mem_filterMap.mp h
    exact processButtonPlain_unhighlighted hb

/-- Slots collected by the direct path before its highlight pass are
unhighlighted. -/
theorem directCollect_unhighlighted {btnLists : List (List Button)}
    {sectionButtons : Option (List Button)} {slot : TimeSlot}
    (h : slot ∈ directCollect btnLists sectionButtons) : slot.isHighlighted = false := by
  simp only [directCollect] at h
  split at h
  · obtain ⟨b, -, hb⟩ := List.mem_filterMap.mp h
    exact processButtonPlain_unhighlighted hb
  · cases hsb : sectionButtons with
    | some bs =>
      rw [hsb] at h
      obtain ⟨b, -, hb⟩ := List.mem_filterMap.mp h
      exact processButtonPlain_unhighlighted hb
    | none =>
      rw [hsb] at h
      simp at h

/-- Soundness of the direct path's highlight pass over unhighlighted input
slots: a highlighted output slot passed the inline-parser filter test (when a
filter argument was truthy) or carries a truthy url (when none was). -/
theorem applyHighlight_sound {tf : Option TimeRange} {sts : Option (List String)}
    {slots : List TimeSlot} {slot' : TimeSlot}
    (h : slot' ∈ applyHighlight tf sts slots)
    (hun : ∀ s ∈ slots, s.isHighlighted = false)
    (hh : slot'.isHighlighted = true) :
    ((tf.isSome || sts.isSome) = true →
      (hostRangeMatchB (startArg tf) (endArg tf) slot'.time ||
        hostSpecificMatchB (sts.getD []) slot'.time) = true) ∧
    ((tf.isSome || sts.isSome) = false → optStrTruthy slot'.url = true) := by
  simp only [applyHighlight] at h
  split at h
  case isTrue hcond =>
    obtain ⟨slot, hs, heq⟩ := List.mem_map.mp h
    by_cases h0 : strEmptyB slot.time = true
    · rw [if_pos h0] at heq
      subst heq
      exact absurd hh (by simp [hun slot hs])
    · rw [if_neg h0] at heq
      by_cases h1 : (!strEmptyB (startArg tf) && !strEmptyB (endArg tf) &&
          jsLeB (hostBound (startArg tf)) (hostParseSlot slot.time) &&
          jsLeB (hostParseSlot slot.time) (hostBound (endArg tf)) ||
          (sts.getD []).any fun t =>
            jsEqB (hostParseSlot slot.time) (hostSpecMinutes t)) = true
      · rw [if_pos h1] at heq
        subst heq
        refine ⟨fun _ => ?_, fun hf => absurd hcond (by simp [hf])⟩
        exact h1
      · rw [if_neg h1] at heq
        subst heq
        exact absurd hh (by simp [hun slot hs])
  case isFalse hcond =>
    obtain ⟨slot, hs, heq⟩ := List.mem_map.mp h
    by_cases h1 : optStrTruthy slot.url = true
    · rw [if_pos h1] at heq
      subst heq
      exact ⟨fun ht => absurd hcond (by simp [ht]), fun _ => h1⟩
    · rw [if_neg h1] at heq
      subst heq
      exact absurd hh (by simp [hun slot hs])

/-! ## The claims -/

/--
C1: range-filter highlighting is inclusive.  Part 1: every slot emitted by
the filtered extraction closure whose `parseTime` minutes lie (inclusively)
between the parsed bounds — both bounds given — is highlighted.  Part 2: the
concrete scenario — query movie+theater with `time_range {17:00, 22:00}`
against showtimes 13:20/17:45/20:10/23:00 yields all four slots, with
`isHighlighted` exactly on 17:45 and 20:10.
-/
theorem claim1_range_inclusive :
    (∀ (startTime endTime : String) (sts : List String) (btnLists : List (List Button))
       (buttons : List Button) (slot : TimeSlot) (sm m em : Int),
       slot ∈ extractFiltered startTime endTime sts btnLists buttons →
       startTime ≠ "" → endTime ≠ "" →
       parseTime startTime = some sm → parseTime endTime = some em →
       parseTime slot.time = some m →
       sm ≤ m → m ≤ em →
       slot.isHighlighted = true) ∧
    containerExtract (some ⟨some "17:00", some "22:00"⟩) (some [])
        [] [⟨"13:20", ""⟩, ⟨"17:45", ""⟩, ⟨"20:10", ""⟩, ⟨"23:00", ""⟩] =
      [⟨"13:20", none, false⟩, ⟨"17:45", none, true⟩,
       ⟨"20:10", none, true⟩, ⟨"23:00", none, false⟩] := by
  constructor
  · intro startTime endTime sts btnLists buttons slot sm m em hmem hst het hsm hem hm hle1 hle2
    rw [extractFiltered_highlight hmem]
    have h1 : rangeMatchB startTime endTime slot.time = true := by
      unfold rangeMatchB
      rw [strEmptyB_false hst, strEmptyB_false het, hsm, hem, hm]
      simp only [jsLeB, Bool.not_false, Bool.true_and]
      rw [decide_eq_true hle1, decide_eq_true hle2]
      rfl
    rw [h1]
    rfl
  · decide

/-- C1 witness: part 1 instantiated on the 17:45 slot of the scenario. -/
theorem claim1_range_inclusive_witness :
    (⟨"17:45", none, true⟩ : TimeSlot).isHighlighted = true :=
  claim1_range_inclusive.1 "1700" "2200" [] [] [⟨"17:45", ""⟩]
    ⟨"17:45", none, true⟩ 1020 1065 1320 (by decide) (by decide) (by decide)
    (by decide) (by decide) (by decide) (by decide) (by decide)

/--
C2: `parseTime` maps "5:10p", "5:10pm", "17:10" and "1710" to 1030 minutes,
"12:00a" to 0 and "12:00p" to 720.
-/
theorem claim2_parseTime_values :
    parseTime "5:10p" = some 1030 ∧ parseTime "5:10pm" = some 1030 ∧
    parseTime "17:10" = some 1030 ∧ parseTime "1710" = some 1030 ∧
    parseTime "12:00a" = some 0 ∧ parseTime "12:00p" = some 720 := by
  decide

/--
C3 counterexample: the claim says every malformed input yields 0, but
`parseTime "abc"` takes the 3-character branch, `parseInt` yields `NaN` on
the non-digits, and `NaN` — not 0 — is returned.
-/
theorem claim3_counterexample :
    parseTime "abc" = none ∧ parseTime "abc" ≠ some 0 := by
  decide

/--
C3 (amended): `parseTime` is total (it never throws: every input yields a
number or `NaN`); the empty input yields 0, and inputs fitting none of the
recognized shapes (no `a`/`p` suffix, no embedded am/pm, no colon, trimmed
length at least 5) also yield 0 — but malformed inputs that fit a recognized
shape yield `NaN` rather than 0.
-/
theorem claim3_malformed_amended :
    parseTime "" = some 0 ∧
    (∀ s : String,
      (trimL s.data).length ≥ 5 →
      endsWithChar (trimL s.data) 'a' = false →
      endsWithChar (trimL s.data) 'p' = false →
      containsSub (toLowerL (trimL s.data)) ['a', 'm'] = false →
      containsSub (toLowerL (trimL s.data)) ['p', 'm'] = false →
      containsChar (trimL s.data) ':' = false →
      parseTime s = some 0) := by
  refine ⟨by decide, ?_⟩
  intro s h5 ha hp ham hpm hcol
  unfold parseTime parseTimeL
  by_cases hnil : s.data.isEmpty = true
  · rw [if_pos hnil]
  · rw [if_neg hnil]
    have h4 : ¬((trimL s.data).length = 4) := by omega
    have h2 : ¬((trimL s.data).length ≤ 2) := by omega
    have h3 : ¬((trimL s.data).length = 3) := by omega
    simp [ha, hp, ham, hpm, hcol, h4, h2, h3, jsEqB, jsAdd, jsMulC]

/-- C3 amended witness: `"garbage!"` fits no recognized shape and yields 0. -/
theorem claim3_malformed_amended_witness :
    parseTime "" = some 0 ∧ parseTime "garbage!" = some 0 :=
  ⟨claim3_malformed_amended.1,
    claim3_malformed_amended.2 "garbage!" (by decide) (by decide) (by decide)
      (by decide) (by decide) (by decide)⟩

/--
C4 (code bug): a query with no `time_range` and no `specific_times` should
highlight exactly the url-bearing slots, but `processQuery` passes
`query.specific_times || []` — a truthy empty array — so
`findMovieOnTheaterPage` takes its filtered branch (whose empty bounds never
match) on both the container path and the direct path; the container path's
no-filter closure moreover hard-codes `isHighlighted: false`.  Evaluated at
the failing input: a url-bearing "5:10p" slot comes back unhighlighted on
every path.
-/
theorem claim4_nofilter_url_bug :
    (⟨some "Dune", none, some "AMC", none, none⟩ : ScraperQuery).time_range = none ∧
    (⟨some "Dune", none, some "AMC", none, none⟩ : ScraperQuery).specific_times = none ∧
    specTimesArg ⟨some "Dune", none, some "AMC", none, none⟩ = some [] ∧
    containerExtract none (some []) [] [⟨"5:10p", "https://tickets/x"⟩] =
      [⟨"5:10p", some "https://tickets/x", false⟩] ∧
    directPath none (some []) [[⟨"5:10p", "https://tickets/x"⟩]] none =
      [⟨"5:10p", some "https://tickets/x", false⟩] ∧
    extractPlain [] [⟨"5:10p", "https://tickets/x"⟩] =
      [⟨"5:10p", some "https://tickets/x", false⟩] := by
  decide

/--
C5 counterexample: the direct extraction path highlights by its inline
parser, not by the §4.1 comparison contract.  The slot "1710" under the
filter 00:00-01:00 is highlighted (the inline parser reads bare digits as
hour 0), yet by the contract (`parseTime "1710"` = 1030 minutes) it matches
neither the range nor any specific time, and a filter is present, so the
claimed invariant fails on this produced slot.
-/
theorem claim5_counterexample :
    directPath (some ⟨some "00:00", some "01:00"⟩) (some []) [[⟨"1710", ""⟩]] none =
      [⟨"1710", none, true⟩] ∧
    (rangeMatchB (startArg (some ⟨some "00:00", some "01:00"⟩))
        (endArg (some ⟨some "00:00", some "01:00"⟩)) "1710" ||
      specificMatchB [] "1710") = false ∧
    (some (⟨some "00:00", some "01:00"⟩ : TimeRange)).isSome = true := by
  decide

/--
C5 (amended): the highlight invariant holds path-by-path, each path measured
with its own parser.  Container path: a highlighted slot satisfies the §4.1
contract (range or specific-time match through `parseTime`); with no filter
that path highlights nothing.  Direct path: with a truthy filter argument a
highlighted slot matches by the inline parser (which reads bare-digit times
as hour 0 and lacks the 12 AM adjustment); with no filter a highlighted slot
carries a truthy url.
-/
theorem claim5_highlight_invariant :
    (∀ (tf : Option TimeRange) (sts : Option (List String)) (btnLists : List (List Button))
       (buttons : List Button) (slot : TimeSlot),
       slot ∈ containerExtract tf sts btnLists buttons →
       slot.isHighlighted = true →
       (rangeMatchB (startArg tf) (endArg tf) slot.time ||
         specificMatchB (sts.getD []) slot.time) = true) ∧
    (∀ (tf : Option TimeRange) (sts : Option (List String)) (btnLists : List (List Button))
       (sectionButtons : Option (List Button)) (slot : TimeSlot),
       slot ∈ directPath tf sts btnLists sectionButtons →
       slot.isHighlighted = true →
       ((tf.isSome || sts.isSome) = true →
         (hostRangeMatchB (startArg tf) (endArg tf) slot.time ||
           hostSpecificMatchB (sts.getD []) slot.time) = true) ∧
       ((tf.isSome || sts.isSome) = false → optStrTruthy slot.url = true)) := by
  constructor
  · intro tf sts btnLists buttons slot hmem hh
    simp only [containerExtract] at hmem
    split at hmem
    · rw [← extractFiltered_highlight hmem]
      exact hh
    · exact absurd hh (by simp [extractPlain_unhighlighted hmem])
  · intro tf sts btnLists sectionButtons slot hmem hh
    exact applyHighlight_sound hmem (fun s hs => directCollect_unhighlighted hs) hh

/-- C5 amended witness: the container path's 17:45 slot under the
17:00-22:00 filter satisfies the contract-level match. -/
theorem claim5_highlight_invariant_witness :
    (rangeMatchB (startArg (some ⟨some "17:00", some "22:00"⟩))
        (endArg (some ⟨some "17:00", some "22:00"⟩)) "17:45" ||
      specificMatchB [] "17:45") = true :=
  claim5_highlight_invariant.1 (some ⟨some "17:00", some "22:00"⟩) (some []) []
    [⟨"17:45", ""⟩] ⟨"17:45", none, true⟩ (by decide) (by decide)

/--
C6 counterexample: with movie, theater AND location all present, a failing
direct theater search does not return — `processQuery` falls through into the
location-first flow (city search, dropdown, extraction), so "never enters the
location-first flow" is false as stated.
-/
theorem claim6_counterexample :
    (processQuery env6 q6).2 =
      [Action.navigate, Action.searchTheater "AMC", Action.searchCity "Chicago",
       Action.selectNearby "AMC", Action.findMovie "Dune"] ∧
    Action.searchCity "Chicago" ∈ (processQuery env6 q6).2 := by
  decide

/--
C6 (amended): when both movie and theater are truthy, `processQuery` runs the
theater-direct flow first, and whenever the direct theater search succeeds it
returns that flow's result — no city/location step is performed and the
result is the full copy of the extraction result; only a failing direct
theater search falls through to the location-first flow.
-/
theorem claim6_theater_direct :
    ∀ (env : Env) (q : ScraperQuery),
      optStrTruthy q.movie = true → optStrTruthy q.theater = true →
      optStrTruthy (env.searchTheaterR 1 (q.theater.getD "")).error = false →
      (processQuery env q).2 =
        [Action.navigate, Action.searchTheater (q.theater.getD ""),
         Action.findMovie (q.movie.getD "")] ∧
      (∀ s, Action.searchCity s ∉ (processQuery env q).2) ∧
      (processQuery env q).1 = copyMovieAll initialResult (env.findMovieR 2) := by
  intro env q hm ht herr
  have hq : (processQuery env q).2 =
      [Action.navigate, Action.searchTheater (q.theater.getD ""),
       Action.findMovie (q.movie.getD "")] ∧
      (processQuery env q).1 = copyMovieAll initialResult (env.findMovieR 2) := by
    simp [processQuery, hm, ht, herr]
  refine ⟨hq.1, ?_, hq.2⟩
  intro s
  rw [hq.1]
  simp

/-- C6 witness: with a successful direct theater search, the trace is exactly
navigate, theater search, movie extraction. -/
theorem claim6_theater_direct_witness :
    (processQuery envTheaterOk q6).2 =
      [Action.navigate, Action.searchTheater "AMC", Action.findMovie "Dune"] :=
  (claim6_theater_direct envTheaterOk q6 (by decide) (by decide) (by decide)).1

/--
C7: a query whose movie, location and theater are all falsy is rejected by
the HTTP handler with status 400 and the error
"No valid search parameters provided", before any scraper is constructed —
the browser-work trace is empty.  (`processQuery`'s own copy of this error is
unreachable for such queries: the route's guard runs first.)
-/
theorem claim7_no_params :
    ∀ (env : Env) (initOk : Bool) (q : ScraperQuery),
      optStrTruthy q.movie = false → optStrTruthy q.location = false →
      optStrTruthy q.theater = false →
      postScraper env initOk q =
        ({ status := 400, error := some "No valid search parameters provided",
           result := none }, []) := by
  intro env initOk q hm hl ht
  simp [postScraper, hm, hl, ht]

/-- C7 witness: the empty query is rejected with no browser work. -/
theorem claim7_no_params_witness :
    postScraper env6 true ⟨none, none, none, none, none⟩ =
      ({ status := 400, error := some "No valid search parameters provided",
         result := none }, []) :=
  claim7_no_params env6 true ⟨none, none, none, none, none⟩
    (by decide) (by decide) (by decide)

/--
C8: registry idempotence of `getOrCreateSession` — if `s` is registered with
instance `sc`, a lookup with `s` returns exactly `sc`, leaves the registry
unchanged and launches nothing, and two such calls (with any fresh-instance
and clock parameters) return the same underlying instance.
-/
theorem claim8_session_idempotent :
    ∀ (reg : Registry) (s : String) (sc : ScraperInst) (f1 f2 : Nat) (n1 n2 : String),
      s ≠ "" → lookupReg reg s = some sc →
      getOrCreateSession reg (some s) f1 n1 = (sc, reg, []) ∧
      (getOrCreateSession reg (some s) f1 n1).1 =
        (getOrCreateSession reg (some s) f2 n2).1 := by
  intro reg s sc f1 f2 n1 n2 hs hl
  have he := strEmptyB_false hs
  constructor
  · simp [getOrCreateSession, he, hl]
  · simp [getOrCreateSession, he, hl]

/-- C8 witness: looking up the one registered session twice returns the same
instance and changes nothing. -/
theorem claim8_session_idempotent_witness :
    getOrCreateSession reg8 (some "1730000000000") 8 "1730000000999" =
      (⟨7, "1730000000000"⟩, reg8, []) ∧
    (getOrCreateSession reg8 (some "1730000000000") 8 "1730000000999").1 =
      (getOrCreateSession reg8 (some "1730000000000") 9 "1730000001000").1 :=
  claim8_session_idempotent reg8 "1730000000000" ⟨7, "1730000000000"⟩ 8 9
    "1730000000999" "1730000001000" (by decide) (by decide)

theorem list_isEmpty_false {α : Type} {l : List α} (h : l ≠ []) : l.isEmpty = false := by
  cases l with
  | nil => exact absurd rfl h
  | cons a t => rfl

/--
C10: in the location-routed flow (direct movie+theater search failed so the
query fell through; city search succeeded; theater resolved via dropdown or
via the fallback direct search; movie present), `processQuery` copies only
screenshots and error from the extraction result: `timeSlots`, `movieTitle`
and `theaterName` are left absent even when extraction succeeds, unlike the
movie-and-theater branch, which copies all of them when truthy.
-/
theorem claim10_location_flow_drops_fields :
    ∀ (env : Env) (q : ScraperQuery),
      optStrTruthy q.movie = true → optStrTruthy q.location = true →
      optStrTruthy q.theater = true →
      optStrTruthy (env.searchTheaterR 1 (q.theater.getD "")).error = true →
      optStrTruthy (env.searchCityR 2 (q.location.getD "")).error = false →
      ((optStrTruthy (env.selectNearbyR 3 (q.theater.getD "")).error = false →
         (processQuery env q).1 = copyMovieScrErr initialResult (env.findMovieR 4)) ∧
       (optStrTruthy (env.selectNearbyR 3 (q.theater.getD "")).error = true →
        optStrTruthy (env.searchTheaterR 4 (q.theater.getD "")).error = false →
         (processQuery env q).1 = copyMovieScrErr initialResult (env.findMovieR 5)) ∧
       (∀ mr : MovieResult,
         (copyMovieScrErr initialResult mr).timeSlots = none ∧
         (copyMovieScrErr initialResult mr).movieTitle = none ∧
         (copyMovieScrErr initialResult mr).theaterName = none ∧
         (copyMovieScrErr initialResult mr).screenshots = mr.screenshots) ∧
       (∀ mr : MovieResult, mr.timeSlots ≠ [] → mr.movieTitle ≠ "" → mr.theaterName ≠ "" →
         (copyMovieAll initialResult mr).timeSlots = some mr.timeSlots ∧
         (copyMovieAll initialResult mr).movieTitle = some mr.movieTitle ∧
         (copyMovieAll initialResult mr).theaterName = some mr.theaterName)) := by
  intro env q hm hl ht herr1 hcity
  refine ⟨?_, ?_, ?_, ?_⟩
  · intro hnear
    simp [processQuery, flowDispatch, hm, hl, ht, herr1, hcity, hnear]
  · intro hnear herr4
    simp [processQuery, flowDispatch, hm, hl, ht, herr1, hcity, hnear, herr4]
  · intro mr
    by_cases he : optStrTruthy mr.error = true
    · cases hscr : mr.screenshots with
      | nil => simp [copyMovieScrErr, initialResult, hscr, he]
      | cons a t => simp [copyMovieScrErr, initialResult, hscr, he]
    · cases hscr : mr.screenshots with
      | nil => simp [copyMovieScrErr, initialResult, hscr, he]
      | cons a t => simp [copyMovieScrErr, initialResult, hscr, he]
  · intro mr hts hmt hth
    have h1 := list_isEmpty_false hts
    have h2 := strEmptyB_false hmt
    have h3 := strEmptyB_false hth
    by_cases he : optStrTruthy mr.error = true
    · simp [copyMovieAll, initialResult, h1, h2, h3, he]
    · simp [copyMovieAll, initialResult, h1, h2, h3, he]

/-- C10 witness: through the dropdown-success location flow with a rich
extraction result, the final result still has no timeSlots. -/
theorem claim10_location_flow_drops_fields_witness :
    (processQuery env10 q6).1 = copyMovieScrErr initialResult (env10.findMovieR 4) ∧
    (copyMovieScrErr initialResult (env10.findMovieR 4)).timeSlots = none ∧
    (env10.findMovieR 4).timeSlots ≠ [] := by
  have h := claim10_location_flow_drops_fields env10 q6 (by decide) (by decide)
    (by decide) (by decide) (by decide)
  exact ⟨h.1 (by decide), (h.2.2.1 (env10.findMovieR 4)).1, by decide⟩

theorem tsChar_digitChar (k : Nat) :
    tsChar (Nat.digitChar (k % 10)) = Nat.digitChar (k % 10) := by
  have hfin : ∀ m : Fin 10, tsChar (Nat.digitChar m.val) = Nat.digitChar m.val := by decide
  exact hfin ⟨k % 10, Nat.mod_lt _ (by norm_num)⟩

theorem isoChars_split (d : JSDate) :
    isoChars d = tsFront d ++ '.' :: pad3 d.ms ++ ['Z'] := by
  simp [isoChars, tsFront, List.append_assoc]

theorem tsFront_length (d : JSDate) : (tsFront d).length = 19 := by
  simp [tsFront, pad4, pad2]

theorem timestampStr_data (d : JSDate) :
    (timestampStr d).data =
      [Nat.digitChar (d.year / 1000 % 10), Nat.digitChar (d.year / 100 % 10),
       Nat.digitChar (d.year / 10 % 10), Nat.digitChar (d.year % 10), '-',
       Nat.digitChar (d.month / 10 % 10), Nat.digitChar (d.month % 10), '-',
       Nat.digitChar (d.day / 10 % 10), Nat.digitChar (d.day % 10), '_',
       Nat.digitChar (d.hour / 10 % 10), Nat.digitChar (d.hour % 10), '-',
       Nat.digitChar (d.minute / 10 % 10), Nat.digitChar (d.minute % 10), '-',
       Nat.digitChar (d.second / 10 % 10), Nat.digitChar (d.second % 10)] := by
  have htake : (isoChars d).take 19 = tsFront d := by
    rw [isoChars_split, ← tsFront_length d]
    exact List.take_left _ _
  have hm : (timestampStr d).data = ((isoChars d).take 19).map tsChar := by
    simp [timestampStr, List.map_take]
  have hs1 : tsChar '-' = '-' := by decide
  have hs2 : tsChar 'T' = '_' := by decide
  have hs3 : tsChar ':' = '-' := by decide
  rw [hm, htake]
  simp [tsFront, pad4, pad2, tsChar_digitChar, hs1, hs2, hs3]

theorem digitChar_inj {a b : Nat} (ha : a < 10) (hb : b < 10)
    (h : Nat.digitChar a = Nat.digitChar b) : a = b := by
  have hfin : ∀ x : Fin 10, ∀ y : Fin 10,
      Nat.digitChar x.val = Nat.digitChar y.val → x = y := by decide
  have := hfin ⟨a, ha⟩ ⟨b, hb⟩ h
  exact congrArg Fin.val this

theorem two_digit_eq {a b : Nat} (ha : a < 100) (hb : b < 100)
    (h1 : Nat.digitChar (a / 10 % 10) = Nat.digitChar (b / 10 % 10))
    (h2 : Nat.digitChar (a % 10) = Nat.digitChar (b % 10)) : a = b := by
  have e1 := digitChar_inj (Nat.mod_lt _ (by norm_num)) (Nat.mod_lt _ (by norm_num)) h1
  have e2 := digitChar_inj (Nat.mod_lt _ (by norm_num)) (Nat.mod_lt _ (by norm_num)) h2
  omega

theorem four_digit_eq {a b : Nat} (ha : a < 10000) (hb : b < 10000)
    (h1 : Nat.digitChar (a / 1000 % 10) = Nat.digitChar (b / 1000 % 10))
    (h2 : Nat.digitChar (a / 100 % 10) = Nat.digitChar (b / 100 % 10))
    (h3 : Nat.digitChar (a / 10 % 10) = Nat.digitChar (b / 10 % 10))
    (h4 : Nat.digitChar (a % 10) = Nat.digitChar (b % 10)) : a = b := by
  have e1 := digitChar_inj (Nat.mod_lt _ (by norm_num)) (Nat.mod_lt _ (by norm_num)) h1
  have e2 := digitChar_inj (Nat.mod_lt _ (by norm_num)) (Nat.mod_lt _ (by norm_num)) h2
  have e3 := digitChar_inj (Nat.mod_lt _ (by norm_num)) (Nat.mod_lt _ (by norm_num)) h3
  have e4 := digitChar_inj (Nat.mod_lt _ (by norm_num)) (Nat.mod_lt _ (by norm_num)) h4
  omega

/--
C9 counterexample: the timestamp in a screenshot file name has one-second
resolution, so two distinct captures — same purpose, same wall-clock second,
different milliseconds — produce the same file name; "for every two captures
the generated file names differ" is false.
-/
theorem claim9_counterexample :
    (⟨2025, 5, 17, 12, 30, 45, 0⟩ : JSDate) ≠ ⟨2025, 5, 17, 12, 30, 45, 500⟩ ∧
    screenshotFilename "debug_full_page" ⟨2025, 5, 17, 12, 30, 45, 0⟩ =
      screenshotFilename "debug_full_page" ⟨2025, 5, 17, 12, 30, 45, 500⟩ := by
  decide

/--
C9 (amended): screenshot file names are unique down to second granularity:
for one purpose name, captures whose (year, month, day, hour, minute, second)
tuples differ always get distinct file names — only captures of the same
purpose within the same wall-clock second collide.
-/
theorem claim9_filename_unique_per_second :
    ∀ (name : String) (d1 d2 : JSDate),
      d1.year < 10000 → d1.month < 100 → d1.day < 100 → d1.hour < 100 →
      d1.minute < 100 → d1.second < 100 →
      d2.year < 10000 → d2.month < 100 → d2.day < 100 → d2.hour < 100 →
      d2.minute < 100 → d2.second < 100 →
      (d1.year, d1.month, d1.day, d1.hour, d1.minute, d1.second) ≠
        (d2.year, d2.month, d2.day, d2.hour, d2.minute, d2.second) →
      screenshotFilename name d1 ≠ screenshotFilename name d2 := by
  intro name d1 d2 hy1 hmo1 hd1 hh1 hmi1 hs1 hy2 hmo2 hd2 hh2 hmi2 hs2 hne h
  apply hne
  have hd : (screenshotFilename name d1).data = (screenshotFilename name d2).data :=
    congrArg String.data h
  simp only [screenshotFilename, String.data_append, List.append_assoc] at hd
  have hts : (timestampStr d1).data = (timestampStr d2).data := by
    have h1 := List.append_cancel_left hd
    have h2 := List.append_cancel_left h1
    exact List.append_cancel_right h2
  rw [timestampStr_data, timestampStr_data] at hts
  simp only [List.cons.injEq, and_true, true_and] at hts
  obtain ⟨y1, y2, y3, y4, m1, m2, dd1, dd2, hh1e, hh2e, mi1e, mi2e, s1e, s2e⟩ := hts
  rw [four_digit_eq hy1 hy2 y1 y2 y3 y4, two_digit_eq hmo1 hmo2 m1 m2,
    two_digit_eq hd1 hd2 dd1 dd2, two_digit_eq hh1 hh2 hh1e hh2e,
    two_digit_eq hmi1 hmi2 mi1e mi2e, two_digit_eq hs1 hs2 s1e s2e]

/-- C9 amended witness: captures one second apart get distinct names. -/
theorem claim9_filename_unique_per_second_witness :
    screenshotFilename "debug_full_page" ⟨2025, 5, 17, 12, 30, 45, 0⟩ ≠
      screenshotFilename "debug_full_page" ⟨2025, 5, 17, 12, 30, 46, 0⟩ :=
  claim9_filename_unique_per_second "debug_full_page" ⟨2025, 5, 17, 12, 30, 45, 0⟩
    ⟨2025, 5, 17, 12, 30, 46, 0⟩ (by decide) (by decide) (by decide) (by decide)
    (by decide) (by decide) (by decide) (by decide) (by decide) (by decide)
    (by decide) (by decide) (by decide)

end Fandango
